import Mathlib

/-!
Verification of the Mentorat-Leadership tracker (src/App.tsx, src/types.ts).

The file embeds the application's state model and its pure state transitions:
the level table and the inline level loop of `submitAction`, the action award
formula, the goal draft/commit merge, the `onSnapshot` remote merge and the
localStorage fallback merge, the connection-status effects of `saveToCloud`,
and a timed model of its 1000ms debounce.  Theorems settle the frozen claims
about these operations.
-/

namespace Mentorat

/-- `currentView` union type of `src/types.ts`. -/
inductive CurrentView
  | selection
  | login
  | mentor
  | coachee
deriving DecidableEq

/-- `activeTab` union type of `src/types.ts`. -/
inductive ActiveTab
  | dashboard
  | add
  | review
deriving DecidableEq

/-- `connectionStatus` union type of `src/types.ts`. -/
inductive ConnectionStatus
  | connecting
  | connected
  | error
  | saving
deriving DecidableEq

/-- `Action` record of `src/types.ts`. -/
structure Action where
  id : Nat
  title : String
  discomfort : Nat
  feeling : String
  date : String
  xp : Nat
deriving DecidableEq

/-- `WeeklyGoal` record of `src/types.ts`. -/
structure WeeklyGoal where
  title : String
  description : String
  deadline : String
  progress : Int
  target : Int
deriving DecidableEq

/-- The `newAction` draft of `AppState` in `src/types.ts`. -/
structure NewActionDraft where
  title : String
  discomfort : Nat
  feeling : String
deriving DecidableEq

/-- `Partial<WeeklyGoal>`, the type of `tempGoal`: each field may be absent. -/
structure PartialWeeklyGoal where
  title : Option String := none
  description : Option String := none
  deadline : Option String := none
  progress : Option Int := none
  target : Option Int := none
deriving DecidableEq

/-- The document shape written by `saveToCloud` (`dataToSave` in
`src/App.tsx`): the five persisted fields of `AppState`. -/
structure PersistedState where
  xp : Nat
  level : Nat
  streak : Nat
  actions : List Action
  weeklyGoal : WeeklyGoal
deriving DecidableEq

/-- `AppState` of `src/types.ts`: persisted data plus UI-only fields. -/
structure AppState where
  xp : Nat
  level : Nat
  streak : Nat
  actions : List Action
  weeklyGoal : WeeklyGoal
  currentView : CurrentView
  activeTab : ActiveTab
  pinInput : String
  pinError : Bool
  newAction : NewActionDraft
  isEditingGoal : Bool
  tempGoal : PartialWeeklyGoal
  connectionStatus : ConnectionStatus
  showConfetti : Bool
deriving DecidableEq

/-- The default weekly goal of `defaultState` in `src/App.tsx`. -/
def defaultGoal : WeeklyGoal :=
  { title := "En attente du Mentor..."
    description := "L\x27objectif de la semaine sera défini bientôt ici."
    deadline := "Dimanche"
    progress := 0
    target := 1 }

/-- `defaultState` of `src/App.tsx`. -/
def defaultState : AppState :=
  { xp := 0
    level := 1
    streak := 0
    actions := []
    weeklyGoal := defaultGoal
    currentView := .selection
    activeTab := .dashboard
    pinInput := ""
    pinError := false
    newAction := { title := "", discomfort := 5, feeling := "neutral" }
    isEditingGoal := false
    tempGoal := {}
    connectionStatus := .connecting
    showConfetti := false }

/-- `levelThresholds` of `src/App.tsx`, in the iteration order of
`Object.entries` (ascending integer keys). -/
def levelThresholds : List (Nat × Nat) :=
  [(1, 0), (2, 500), (3, 1000), (4, 2000), (5, 3500)]

/-- The inline level loop of `submitAction` (`src/App.tsx` lines 314-317):
start at 1, walk the threshold entries in order, keep the last level whose
threshold is at most the experience. -/
def levelFor (xp : Nat) : Nat :=
  levelThresholds.foldl (fun acc entry => if entry.2 ≤ xp then entry.1 else acc) 1

/-- The `dataToSave` projection of `saveToCloud`: the five persisted fields. -/
def dataToSave (s : AppState) : PersistedState :=
  { xp := s.xp
    level := s.level
    streak := s.streak
    actions := s.actions
    weeklyGoal := s.weeklyGoal }

/-- The `onSnapshot` merge of `init` (`src/App.tsx` lines 158-164): spread the
remote document over the previous state, restore `currentView` and `activeTab`
from the previous state, and set `connectionStatus` to connected. -/
def applyRemoteSnapshot (prev : AppState) (remote : PersistedState) : AppState :=
  { prev with
    xp := remote.xp
    level := remote.level
    streak := remote.streak
    actions := remote.actions
    weeklyGoal := remote.weeklyGoal
    currentView := prev.currentView
    activeTab := prev.activeTab
    connectionStatus := .connected }

/-- The localStorage fallback merge (`src/App.tsx` lines 130-146): same shape
as the `onSnapshot` merge, applied to the parsed local document. -/
def applyLocalFallback (prev : AppState) (parsed : PersistedState) : AppState :=
  { prev with
    xp := parsed.xp
    level := parsed.level
    streak := parsed.streak
    actions := parsed.actions
    weeklyGoal := parsed.weeklyGoal
    currentView := prev.currentView
    activeTab := prev.activeTab
    connectionStatus := .connected }

/-- `setView` of `src/App.tsx`. -/
def setView (s : AppState) (v : CurrentView) : AppState :=
  { s with currentView := v }

/-- `setTab` of `src/App.tsx`. -/
def setTab (s : AppState) (t : ActiveTab) : AppState :=
  { s with activeTab := t }

/-- `clearPin` of `src/App.tsx`; also the delayed reset after a wrong PIN. -/
def clearPin (s : AppState) : AppState :=
  { s with pinInput := "", pinError := false }

/-- The net state effect of `handlePin` in `src/App.tsx` (the delayed error
reset is `clearPin`). -/
def handlePin (s : AppState) (num : String) : AppState :=
  if s.pinInput.length < 4 then
    let newVal := s.pinInput ++ num
    let s1 := { s with pinInput := newVal }
    if newVal.length = 4 then
      if newVal = "1234" then { s1 with currentView := .mentor, pinInput := "" }
      else { s1 with pinError := true }
    else s1
  else s

/-- `toggleEditGoal` of `src/App.tsx`: flip the edit flag; entering edit mode
copies the current goal into `tempGoal` (all fields present), leaving it
clears `tempGoal`. -/
def toggleEditGoal (s : AppState) : AppState :=
  let isEditing := !s.isEditingGoal
  { s with
    isEditingGoal := isEditing
    tempGoal :=
      if isEditing then
        { title := some s.weeklyGoal.title
          description := some s.weeklyGoal.description
          deadline := some s.weeklyGoal.deadline
          progress := some s.weeklyGoal.progress
          target := some s.weeklyGoal.target }
      else {} }

/-- `updateTempGoal` of `src/App.tsx` applied to the `title` field. -/
def updateTempGoalTitle (s : AppState) (v : String) : AppState :=
  { s with tempGoal := { s.tempGoal with title := some v } }

/-- `updateTempGoal` of `src/App.tsx` applied to the `description` field. -/
def updateTempGoalDescription (s : AppState) (v : String) : AppState :=
  { s with tempGoal := { s.tempGoal with description := some v } }

/-- `updateTempGoal` of `src/App.tsx` applied to the `target` field. -/
def updateTempGoalTarget (s : AppState) (v : Int) : AppState :=
  { s with tempGoal := { s.tempGoal with target := some v } }

/-- `updateNewAction` of `src/App.tsx` applied to the `title` field. -/
def updateNewActionTitle (s : AppState) (v : String) : AppState :=
  { s with newAction := { s.newAction with title := v } }

/-- `updateNewAction` of `src/App.tsx` applied to the `discomfort` field. -/
def updateNewActionDiscomfort (s : AppState) (v : Nat) : AppState :=
  { s with newAction := { s.newAction with discomfort := v } }

/-- `updateNewAction` of `src/App.tsx` applied to the `feeling` field. -/
def updateNewActionFeeling (s : AppState) (v : String) : AppState :=
  { s with newAction := { s.newAction with feeling := v } }

/-- The JS spread merge of `saveGoal`: the committed goal is the current goal
with every field present in the draft overwritten. -/
def mergeGoal (current : WeeklyGoal) (draft : PartialWeeklyGoal) : WeeklyGoal :=
  { title := draft.title.getD current.title
    description := draft.description.getD current.description
    deadline := draft.deadline.getD current.deadline
    progress := draft.progress.getD current.progress
    target := draft.target.getD current.target }

/-- `saveGoal` of `src/App.tsx` (state effect; it then triggers an immediate
save of the new state). -/
def saveGoal (s : AppState) : AppState :=
  { s with weeklyGoal := mergeGoal s.weeklyGoal s.tempGoal, isEditingGoal := false }

/-- The award formula of `submitAction`: `basePoints + discomfort * 10`. -/
def xpAward (discomfort : Nat) : Nat :=
  50 + discomfort * 10

/-- The `newEntry` record built by `submitAction`; `now` is `Date.now()` and
`today` the formatted date string. -/
def mkAction (draft : NewActionDraft) (now : Nat) (today : String) : Action :=
  { id := now
    title := draft.title
    discomfort := draft.discomfort
    feeling := draft.feeling
    date := today
    xp := xpAward draft.discomfort }

/-- `submitAction` of `src/App.tsx` (state effect; it then triggers an
immediate save, and the confetti flag is cleared later by a timer). -/
def submitAction (s : AppState) (now : Nat) (today : String) : AppState :=
  let totalPoints := xpAward s.newAction.discomfort
  let newEntry := mkAction s.newAction now today
  let newXp := s.xp + totalPoints
  { s with
    actions := newEntry :: s.actions
    xp := newXp
    level := levelFor newXp
    newAction := { title := "", discomfort := 5, feeling := "neutral" }
    activeTab := .dashboard
    showConfetti := true }

/-- `logout` of `src/App.tsx`. -/
def logout (s : AppState) : AppState :=
  { s with currentView := .selection, pinInput := "" }

/-- Outcome of one persistence write attempt. -/
inductive WriteOutcome
  | ok
  | failed
deriving DecidableEq

/-- Entry of `saveToCloud`: `connectionStatus` is set to saving. -/
def beginSave (s : AppState) : AppState :=
  { s with connectionStatus := .saving }

/-- Settlement of a `saveToCloud` write.  A successful write sets connected.
A failed forced write is caught by the enclosing try/catch, which sets error.
A failed debounced write rejects inside the `setTimeout` async callback,
outside the try/catch, so no handler runs and the state is left unchanged. -/
def settleSave (s : AppState) (force : Bool) (outcome : WriteOutcome) : AppState :=
  match outcome with
  | .ok => { s with connectionStatus := .connected }
  | .failed => if force then { s with connectionStatus := .error } else s

/-- The full `connectionStatus` effect of one `saveToCloud` call whose write
eventually runs with the given outcome. -/
def saveToCloudStatus (s : AppState) (force : Bool) (outcome : WriteOutcome) : AppState :=
  settleSave (beginSave s) force outcome

/-- Timed model of the debounced write path of `saveToCloud`: each event is a
non-forced call at a time, carrying the payload captured at schedule time.
Each call clears the pending timer and schedules its own 1000ms timer, so a
payload is written exactly when no later call arrives within 1000ms (the last
scheduled timer always fires). -/
def debounceWrites : List (Nat × PersistedState) → List PersistedState
  | [] => []
  | [(_, p)] => [p]
  | (t1, p1) :: (t2, p2) :: rest =>
    if t1 + 1000 ≤ t2 then p1 :: debounceWrites ((t2, p2) :: rest)
    else debounceWrites ((t2, p2) :: rest)

/-- `levelThresholds[level]` as a lookup in entry order. -/
def thresholdLookup (level : Nat) : Option Nat :=
  (levelThresholds.find? (fun entry => entry.1 == level)).map (fun entry => entry.2)

/-- `Math.min` on rationals. -/
def jsMin (a b : ℚ) : ℚ :=
  if a ≤ b then a else b

/-- `levelThresholds[state.level + 1] || 10000` of `renderCoachee`
(`src/App.tsx` line 523): a missing entry, or the falsy threshold 0, falls
back to the sentinel 10000. -/
def nextLvlXp (level : Nat) : Nat :=
  match thresholdLookup (level + 1) with
  | some t => if t = 0 then 10000 else t
  | none => 10000

/-- `progressPercent` of `renderCoachee` (`src/App.tsx` lines 522-525):
`Math.min(100, (xp - currentLvlXp) / (nextLvlXp - currentLvlXp) * 100)`.
`none` models the NaN arithmetic of an undefined `levelThresholds[level]`. -/
def progressPercent (xp : Nat) (level : Nat) : Option ℚ :=
  (thresholdLookup level).map (fun currentLvlXp =>
    jsMin 100 (((xp : ℚ) - currentLvlXp) / ((nextLvlXp level : ℚ) - currentLvlXp) * 100))

/-- Closed form of the level loop as a chain of threshold tests. -/
theorem levelFor_eq_ite (x : Nat) :
    levelFor x =
      if 3500 ≤ x then 5
      else if 2000 ≤ x then 4
      else if 1000 ≤ x then 3
      else if 500 ≤ x then 2
      else 1 := by
  simp [levelFor, levelThresholds, List.foldl]

/-- `Math.min a b` is at most `a`. -/
theorem jsMin_le_left (a b : ℚ) : jsMin a b ≤ a := by
  unfold jsMin
  split
  · exact le_refl a
  · exact le_of_lt (lt_of_not_le (by assumption))

/-- C1 counterexample: the `onSnapshot` merge of a remote document with
experience 0 and level 5 yields in-memory level 5, while `levelFor 0 = 1`, so
the level is not recomputed from the merged experience. -/
theorem remoteLevel_not_recomputed :
    (applyRemoteSnapshot defaultState
        { xp := 0, level := 5, streak := 0, actions := [], weeklyGoal := defaultGoal }).level = 5
      ∧ levelFor 0 = 1 ∧ (5 : Nat) ≠ 1 :=
  ⟨rfl, by decide, by decide⟩

/-- C1 (amended): the `onSnapshot` merge takes every persisted field,
including `level`, verbatim from the remote document; `level` is not
recomputed from the merged experience. -/
theorem applyRemoteSnapshot_level_verbatim (prev : AppState) (remote : PersistedState) :
    (applyRemoteSnapshot prev remote).level = remote.level ∧
    (applyRemoteSnapshot prev remote).xp = remote.xp ∧
    (applyRemoteSnapshot prev remote).streak = remote.streak ∧
    (applyRemoteSnapshot prev remote).actions = remote.actions ∧
    (applyRemoteSnapshot prev remote).weeklyGoal = remote.weeklyGoal :=
  ⟨rfl, rfl, rfl, rfl, rfl⟩

/-- C2 counterexample: the remote-snapshot merge does not leave every UI-only
field identical: a prior `connectionStatus` of error becomes connected. -/
theorem remoteMerge_overwrites_connectionStatus :
    (applyRemoteSnapshot { defaultState with connectionStatus := .error }
        (dataToSave defaultState)).connectionStatus = ConnectionStatus.connected
      ∧ ConnectionStatus.connected ≠ ConnectionStatus.error :=
  ⟨rfl, by decide⟩

/-- C2 (amended): the remote-snapshot merge (and the localStorage fallback
merge) overwrites exactly the persisted fields, preserves every UI-only field
except `connectionStatus`, and sets `connectionStatus` to connected
regardless of its prior value. -/
theorem remoteMerge_frame (prev : AppState) (remote : PersistedState) :
    dataToSave (applyRemoteSnapshot prev remote) = remote ∧
    (applyRemoteSnapshot prev remote).currentView = prev.currentView ∧
    (applyRemoteSnapshot prev remote).activeTab = prev.activeTab ∧
    (applyRemoteSnapshot prev remote).pinInput = prev.pinInput ∧
    (applyRemoteSnapshot prev remote).pinError = prev.pinError ∧
    (applyRemoteSnapshot prev remote).newAction = prev.newAction ∧
    (applyRemoteSnapshot prev remote).isEditingGoal = prev.isEditingGoal ∧
    (applyRemoteSnapshot prev remote).tempGoal = prev.tempGoal ∧
    (applyRemoteSnapshot prev remote).showConfetti = prev.showConfetti ∧
    (applyRemoteSnapshot prev remote).connectionStatus = ConnectionStatus.connected ∧
    dataToSave (applyLocalFallback prev remote) = remote ∧
    (applyLocalFallback prev remote).currentView = prev.currentView ∧
    (applyLocalFallback prev remote).activeTab = prev.activeTab ∧
    (applyLocalFallback prev remote).pinInput = prev.pinInput ∧
    (applyLocalFallback prev remote).pinError = prev.pinError ∧
    (applyLocalFallback prev remote).newAction = prev.newAction ∧
    (applyLocalFallback prev remote).isEditingGoal = prev.isEditingGoal ∧
    (applyLocalFallback prev remote).tempGoal = prev.tempGoal ∧
    (applyLocalFallback prev remote).showConfetti = prev.showConfetti ∧
    (applyLocalFallback prev remote).connectionStatus = ConnectionStatus.connected :=
  ⟨rfl, rfl, rfl, rfl, rfl, rfl, rfl, rfl, rfl, rfl,
   rfl, rfl, rfl, rfl, rfl, rfl, rfl, rfl, rfl, rfl⟩

/-- C3: two debounced saves scheduled within the 1000ms window produce exactly
one write, whose payload is the persisted projection captured at the second
(later) schedule, not the first. -/
theorem debounce_coalesces (s1 s2 : AppState) (t1 t2 : Nat) (h : t2 < t1 + 1000) :
    debounceWrites [(t1, dataToSave s1), (t2, dataToSave s2)] = [dataToSave s2] ∧
    (debounceWrites [(t1, dataToSave s1), (t2, dataToSave s2)]).length = 1 := by
  have hn : ¬ t1 + 1000 ≤ t2 := Nat.not_le.mpr h
  refine ⟨?_, ?_⟩ <;> simp [debounceWrites, hn]

/-- C3 witness: two concrete saves 500ms apart coalesce into one write of the
later payload. -/
theorem debounce_coalesces_witness :
    debounceWrites
        [(0, dataToSave defaultState), (500, dataToSave (submitAction defaultState 1 "2026-01-01"))]
      = [dataToSave (submitAction defaultState 1 "2026-01-01")] ∧
    (debounceWrites
        [(0, dataToSave defaultState), (500, dataToSave (submitAction defaultState 1 "2026-01-01"))]).length = 1 :=
  debounce_coalesces defaultState (submitAction defaultState 1 "2026-01-01") 0 500 (by decide)

/-- C4: evaluating the `saveToCloud` status model: a failed debounced
(non-forced) write leaves `connectionStatus` at saving — the rejection inside
the `setTimeout` async callback escapes the try/catch — while a failed forced
write yields error, successful writes yield connected (also from a prior
error state), and a failed write does not roll back the persisted fields. -/
theorem debounced_write_failure_stays_saving :
    (saveToCloudStatus defaultState false .failed).connectionStatus = ConnectionStatus.saving ∧
    (saveToCloudStatus defaultState true .failed).connectionStatus = ConnectionStatus.error ∧
    (saveToCloudStatus defaultState true .ok).connectionStatus = ConnectionStatus.connected ∧
    (saveToCloudStatus defaultState false .ok).connectionStatus = ConnectionStatus.connected ∧
    (saveToCloudStatus { defaultState with connectionStatus := .error } true .ok).connectionStatus
        = ConnectionStatus.connected ∧
    dataToSave (saveToCloudStatus defaultState false .failed) = dataToSave defaultState ∧
    dataToSave (saveToCloudStatus defaultState true .failed) = dataToSave defaultState :=
  ⟨rfl, rfl, rfl, rfl, rfl, rfl, rfl⟩

/-- C5: `levelFor` returns the highest level of the threshold table whose
threshold is at most the experience (exact equality grants the level), takes
the stated values at 0, 499, 500 and 3500, and is monotone. -/
theorem levelFor_highest_threshold (x : Nat) :
    (∃ entry ∈ levelThresholds, entry.1 = levelFor x ∧ entry.2 ≤ x) ∧
    (∀ entry ∈ levelThresholds, entry.2 ≤ x → entry.1 ≤ levelFor x) ∧
    levelFor 0 = 1 ∧ levelFor 499 = 1 ∧ levelFor 500 = 2 ∧ levelFor 3500 = 5 ∧
    (∀ a b : Nat, a ≤ b → levelFor a ≤ levelFor b) := by
  refine ⟨?_, ?_, by decide, by decide, by decide, by decide, ?_⟩
  · rw [levelFor_eq_ite]
    split_ifs with h1 h2 h3 h4
    · exact ⟨(5, 3500), by decide, rfl, h1⟩
    · exact ⟨(4, 2000), by decide, rfl, h2⟩
    · exact ⟨(3, 1000), by decide, rfl, h3⟩
    · exact ⟨(2, 500), by decide, rfl, h4⟩
    · exact ⟨(1, 0), by decide, rfl, Nat.zero_le x⟩
  · intro entry hm hle
    simp only [levelThresholds, List.mem_cons, List.not_mem_nil, or_false] at hm
    rw [levelFor_eq_ite]
    rcases hm with h | h | h | h | h <;> subst h <;> simp only at hle ⊢ <;> split_ifs <;> omega
  · intro a b hab
    rw [levelFor_eq_ite, levelFor_eq_ite]
    split_ifs <;> omega

/-- A coachee state at experience 450 about to record a discomfort-8 action
(the worked scenario of the spec). -/
def stateAt450 : AppState :=
  { defaultState with xp := 450, newAction := { title := "t", discomfort := 8, feeling := "proud" } }

/-- C6: a recorded action's award is `50 + discomfort * 10` (100, 150, 60 at
discomfort 5, 10, 1), the new experience is the previous experience plus the
award, the new level is `levelFor` of the new experience, and recording a
discomfort-8 action at experience 450 gives experience 580 and level 2. -/
theorem submitAction_award (s : AppState) (now : Nat) (today : String) :
    (submitAction s now today).actions.head? = some (mkAction s.newAction now today) ∧
    (mkAction s.newAction now today).xp = 50 + s.newAction.discomfort * 10 ∧
    (submitAction s now today).xp = s.xp + (50 + s.newAction.discomfort * 10) ∧
    (submitAction s now today).level = levelFor (s.xp + (50 + s.newAction.discomfort * 10)) ∧
    xpAward 5 = 100 ∧ xpAward 10 = 150 ∧ xpAward 1 = 60 ∧
    (submitAction stateAt450 0 "2026-01-01").xp = 580 ∧
    (submitAction stateAt450 0 "2026-01-01").level = 2 :=
  ⟨rfl, rfl, rfl, rfl, rfl, rfl, rfl, by decide, by decide⟩

/-- C7: `submitAction` prepends the new action, keeping every prior entry in
order at index 1 onward, and every other state operation leaves the actions
list unchanged — no operation re-sorts, mutates or deletes an entry. -/
theorem actions_prepend_and_preserved (s : AppState) (now : Nat) (today : String)
    (v : CurrentView) (tab : ActiveTab) (num ti de : String) (tg : Int) (d : Nat)
    (force : Bool) (outcome : WriteOutcome) :
    (submitAction s now today).actions = mkAction s.newAction now today :: s.actions ∧
    (saveGoal s).actions = s.actions ∧
    (toggleEditGoal s).actions = s.actions ∧
    (setView s v).actions = s.actions ∧
    (setTab s tab).actions = s.actions ∧
    (handlePin s num).actions = s.actions ∧
    (clearPin s).actions = s.actions ∧
    (logout s).actions = s.actions ∧
    (updateTempGoalTitle s ti).actions = s.actions ∧
    (updateTempGoalDescription s de).actions = s.actions ∧
    (updateTempGoalTarget s tg).actions = s.actions ∧
    (updateNewActionTitle s ti).actions = s.actions ∧
    (updateNewActionDiscomfort s d).actions = s.actions ∧
    (updateNewActionFeeling s de).actions = s.actions ∧
    (beginSave s).actions = s.actions ∧
    (settleSave s force outcome).actions = s.actions ∧
    (saveToCloudStatus s force outcome).actions = s.actions := by
  refine ⟨rfl, rfl, rfl, rfl, rfl, ?_, rfl, rfl, rfl, rfl, rfl, rfl, rfl, rfl, rfl, ?_, ?_⟩
  · simp only [handlePin]
    repeat' split
    all_goals rfl
  · cases outcome <;> cases force <;> rfl
  · cases outcome <;> cases force <;> rfl

/-- C8: the committed goal is the current goal with exactly the fields
present in the draft overwritten; fields absent from the draft keep the
current goal's value, and committing a title-only draft changes only the
title. -/
theorem saveGoal_commit (s : AppState) (current : WeeklyGoal)
    (draft : PartialWeeklyGoal) (x : String) :
    (saveGoal s).weeklyGoal = mergeGoal s.weeklyGoal s.tempGoal ∧
    (∀ v, draft.title = some v → (mergeGoal current draft).title = v) ∧
    (draft.title = none → (mergeGoal current draft).title = current.title) ∧
    (∀ v, draft.description = some v → (mergeGoal current draft).description = v) ∧
    (draft.description = none → (mergeGoal current draft).description = current.description) ∧
    (∀ v, draft.deadline = some v → (mergeGoal current draft).deadline = v) ∧
    (draft.deadline = none → (mergeGoal current draft).deadline = current.deadline) ∧
    (∀ v, draft.progress = some v → (mergeGoal current draft).progress = v) ∧
    (draft.progress = none → (mergeGoal current draft).progress = current.progress) ∧
    (∀ v, draft.target = some v → (mergeGoal current draft).target = v) ∧
    (draft.target = none → (mergeGoal current draft).target = current.target) ∧
    mergeGoal current { title := some x } = { current with title := x } := by
  refine ⟨rfl, ?_, ?_, ?_, ?_, ?_, ?_, ?_, ?_, ?_, ?_, rfl⟩
  all_goals
    first
      | (intro v hv; simp [mergeGoal, hv])
      | (intro hv; simp [mergeGoal, hv])

/-- C9 counterexample: two actions recorded in the same wall-clock
millisecond receive the same id 1000, so the later id is not strictly
greater. -/
theorem same_millisecond_ids_equal :
    (submitAction (submitAction defaultState 1000 "2026-01-01") 1000 "2026-01-01").actions.map
        Action.id = [1000, 1000] ∧
    ¬ ((1000 : Nat) < 1000) :=
  ⟨rfl, by decide⟩

/-- C9 (amended): an action's id is the creation wall-clock millisecond, so
for creations at times t1 ≤ t2 the later id is greater than or equal to the
earlier id — with equality, not strict increase, when both creations fall in
the same millisecond. -/
theorem action_ids_follow_clock (s : AppState) (t1 t2 : Nat) (d1 d2 : String)
    (h : t1 ≤ t2) :
    (mkAction (submitAction s t1 d1).newAction t2 d2).id = t2 ∧
    (mkAction s.newAction t1 d1).id = t1 ∧
    (mkAction s.newAction t1 d1).id ≤ (mkAction (submitAction s t1 d1).newAction t2 d2).id ∧
    (submitAction (submitAction s t1 d1) t2 d2).actions =
      mkAction (submitAction s t1 d1).newAction t2 d2 :: mkAction s.newAction t1 d1 :: s.actions :=
  ⟨rfl, rfl, h, rfl⟩

/-- C9 witness: the amended statement at creation times 5 and 7. -/
theorem action_ids_follow_clock_witness :
    (mkAction (submitAction defaultState 5 "a").newAction 7 "b").id = 7 ∧
    (mkAction defaultState.newAction 5 "a").id = 5 ∧
    (mkAction defaultState.newAction 5 "a").id
        ≤ (mkAction (submitAction defaultState 5 "a").newAction 7 "b").id ∧
    (submitAction (submitAction defaultState 5 "a") 7 "b").actions =
      mkAction (submitAction defaultState 5 "a").newAction 7 "b"
        :: mkAction defaultState.newAction 5 "a" :: defaultState.actions :=
  action_ids_follow_clock defaultState 5 7 "a" "b" (by decide)

/-- C10 counterexample: at experience 0 and level 2 the rendered progress is
-100 percent — the computation is not clamped below 0, so the fraction is not
confined to the interval from 0 to 1. -/
theorem progressPercent_negative :
    progressPercent 0 2 = some (-100) ∧ ((-100 : ℚ) < 0) := by
  constructor
  · simp only [progressPercent, show thresholdLookup 2 = some 500 from rfl,
      show nextLvlXp 2 = 1000 from rfl, Option.map_some', jsMin]
    norm_num
  · norm_num

/-- C10 (amended): for every level with a table entry, the progress value is
the formula `(xp - thresholdOf level) / (nextLvlXp level - thresholdOf level)
* 100` clamped above at 100 only (it can go below 0); the sentinel 10000
stands in for a missing `level + 1` entry, and the denominator is always
positive, so the computation never divides by zero. -/
theorem progressPercent_clamped_above (xp level : Nat) (h1 : 1 ≤ level) (h5 : level ≤ 5) :
    ∃ cur : Nat, ∃ q : ℚ,
      thresholdLookup level = some cur ∧
      (cur : ℚ) < (nextLvlXp level : ℚ) ∧
      progressPercent xp level = some q ∧
      q = jsMin 100 (((xp : ℚ) - cur) / ((nextLvlXp level : ℚ) - cur) * 100) ∧
      q ≤ 100 := by
  interval_cases level <;>
    exact ⟨_, _, rfl, Nat.cast_lt.mpr (by decide), rfl, rfl, jsMin_le_left _ _⟩

/-- C10 witness: the amended statement at experience 750, level 1. -/
theorem progressPercent_clamped_above_witness :
    ∃ cur : Nat, ∃ q : ℚ,
      thresholdLookup 1 = some cur ∧
      (cur : ℚ) < (nextLvlXp 1 : ℚ) ∧
      progressPercent 750 1 = some q ∧
      q = jsMin 100 ((((750 : Nat) : ℚ) - cur) / ((nextLvlXp 1 : ℚ) - cur) * 100) ∧
      q ≤ 100 :=
  progressPercent_clamped_above 750 1 (by decide) (by decide)

end Mentorat
